import Mathlib

/-
Verification development for the Orange County zoning explorer
(src/app_maplibre.js). The client-side filter predicate, the date/year
normalization, the analytics aggregation and the export serialization are
embedded shallowly as pure Lean functions; theorems below settle the
frozen claims about them.
-/

namespace OCZoning

/-! ## String primitives

Models of the JavaScript string operations the application uses:
`String.prototype.includes` (contiguous substring test) and the global
regex replacement `.replace(/"/g, double-quote-doubling)` used by the CSV
serializer. They are written as structural recursions over character
lists so that concrete instances evaluate by kernel reduction. -/

/-- matchHere l pat is true when pat occurs at the very start of l. -/
def matchHere : List Char → List Char → Bool
  | _, [] => true
  | [], _ :: _ => false
  | c :: cs, p :: ps => c == p && matchHere cs ps

/-- occursIn l pat is true when pat occurs contiguously anywhere in l. -/
def occursIn : List Char → List Char → Bool
  | [], pat => matchHere [] pat
  | c :: cs, pat => matchHere (c :: cs) pat || occursIn cs pat

/-- Model of the JavaScript call s.includes(pat). -/
def strIncludes (s pat : String) : Bool :=
  occursIn s.toList pat.toList

/-- Model of the JavaScript call s.toLowerCase(), mapping every
character to its lower case. -/
def strToLower (s : String) : String :=
  String.mk (s.toList.map Char.toLower)

/-- Model of the JavaScript truthiness default v OR d for string-valued
attributes: an absent attribute and the empty string are falsy. -/
def jsOrStr : Option String → String → String
  | some s, d => if s = "" then d else s
  | none, d => d

/-- Model of the JavaScript truthiness default v OR d for numeric
attributes (JS numbers are modelled as rationals): absence and 0 are
falsy, so both yield the default. -/
def jsOrQ : Option ℚ → ℚ → ℚ
  | some q, d => if q = 0 then d else q
  | none, d => d

/-! ## Data model

A zoning feature carries the attributes the filter, analytics and export
code read (src/app_maplibre.js, state and applyFilters). A raw date
attribute value is modelled through the two observations the code makes
of it: its JS truthiness, and the result of new Date(v).getFullYear()
(none when the constructed date is invalid, i.e. the year is NaN). -/

structure DateVal where
  isTruthy : Bool
  fullYear : Option Int
deriving DecidableEq, Repr

structure Props where
  z_group : Option String
  ZONING : Option String
  PD_NAME : Option String
  ZONINGOLD : Option String
  area_acres : Option ℚ
  BCC_DATE : Option DateVal
  P_Z_DATE : Option DateVal
  MAINT_DATE : Option DateVal
deriving DecidableEq

structure Feature where
  properties : Props
deriving DecidableEq

/-- Filter configuration state.filters of the application. -/
structure Filters where
  group : String
  yearMin : Int
  yearMax : Int
  areaMin : ℚ
  areaMax : ℚ
  search : String
deriving DecidableEq

/-! ## Year derivation (applyFilters lines 438 to 444)

The source derives year with a chain of JS conditional expressions:
props.BCC_DATE ? new Date(props.BCC_DATE).getFullYear() : props.P_Z_DATE
? ... : props.MAINT_DATE ? ... : null. A branch is taken when the
attribute is present and truthy; the parsed year of the first such
attribute is used, even when parsing fails (NaN, modelled as none). -/

/-- One step of the JS conditional chain over a date attribute. -/
def condDate : Option DateVal → Option Int → Option Int
  | some d, rest => if d.isTruthy then d.fullYear else rest
  | none, rest => rest

/-- The year local variable computed by the filter callback: the parsed
year of the first truthy date attribute, in the priority order BCC_DATE,
P_Z_DATE, MAINT_DATE; none models both null and NaN. -/
def featureYear (p : Props) : Option Int :=
  condDate p.BCC_DATE (condDate p.P_Z_DATE (condDate p.MAINT_DATE none))

/-! ## The filter callback (applyFilters lines 426 to 475)

Each early return false of the callback is one exclusion test. -/

/-- Group exclusion: filters.group is not ALL and differs from z_group. -/
def groupExcl (f : Filters) (p : Props) : Bool :=
  decide (f.group ≠ "ALL") && decide (p.z_group ≠ some f.group)

/-- Year exclusion: year truthy (non-null, non-NaN, nonzero) and outside
the configured range. There is no 1900 cutoff here. -/
def yearExcl (f : Filters) (p : Props) : Bool :=
  match featureYear p with
  | none => false
  | some y => decide (y ≠ 0) && (decide (y < f.yearMin) || decide (y > f.yearMax))

/-- Area exclusion: area (defaulted to 0) strictly outside the range. -/
def areaExcl (f : Filters) (p : Props) : Bool :=
  decide (jsOrQ p.area_acres 0 < f.areaMin) || decide (jsOrQ p.area_acres 0 > f.areaMax)

/-- Some of the four searchable fields, lower-cased, includes term. -/
def searchHit (term : String) (p : Props) : Bool :=
  ([p.ZONING, p.z_group, p.PD_NAME, p.ZONINGOLD].map
      (fun fld => strToLower (jsOrStr fld ""))).any
    (fun s => strIncludes s term)

/-- Search exclusion: search string truthy (nonempty) and no field hit. -/
def searchExcl (f : Filters) (p : Props) : Bool :=
  decide (f.search ≠ "") && !(searchHit (strToLower f.search) p)

/-- The filter callback of applyFilters: a chain of early returns of
false guarded by the four exclusion tests, then true. -/
def applyFiltersPred (f : Filters) (feat : Feature) : Bool :=
  if groupExcl f feat.properties then false
  else if yearExcl f feat.properties then false
  else if areaExcl f feat.properties then false
  else if searchExcl f feat.properties then false
  else true

/-- Features kept by applyFilters for map re-rendering. -/
def applyFiltersFeatures (fs : List Feature) (f : Filters) : List Feature :=
  fs.filter (applyFiltersPred f)

/-! ## getCurrentFilteredData (lines 776 to 829)

The source duplicates the filter callback textually inside
getCurrentFilteredData; the duplicate is embedded here on its own. -/

/-- The filter callback of getCurrentFilteredData, a textual duplicate
of the applyFilters callback in the source, embedded independently. -/
def getCurrentFilteredDataPred (f : Filters) (feat : Feature) : Bool :=
  if decide (f.group ≠ "ALL") && decide (feat.properties.z_group ≠ some f.group) then false
  else if (match condDate feat.properties.BCC_DATE
      (condDate feat.properties.P_Z_DATE
        (condDate feat.properties.MAINT_DATE none)) with
    | none => false
    | some y => decide (y ≠ 0) && (decide (y < f.yearMin) || decide (y > f.yearMax))) then false
  else if decide (jsOrQ feat.properties.area_acres 0 < f.areaMin)
      || decide (jsOrQ feat.properties.area_acres 0 > f.areaMax) then false
  else if decide (f.search ≠ "")
      && !(([feat.properties.ZONING, feat.properties.z_group,
            feat.properties.PD_NAME, feat.properties.ZONINGOLD].map
              (fun fld => strToLower (jsOrStr fld ""))).any
            (fun s => strIncludes s (strToLower f.search))) then false
  else true

/-- getCurrentFilteredData: empty when no data is loaded, otherwise the
features kept by its own copy of the filter callback. -/
def getCurrentFilteredData (zoningData : Option (List Feature)) (f : Filters) : List Feature :=
  match zoningData with
  | none => []
  | some fs => fs.filter (getCurrentFilteredDataPred f)

/-! ## The four component predicates in positive form (spec section 4.2)

Stated the way the spec words them; the claim theorems connect them to
the exclusion tests of the source. -/

/-- Category predicate: config category is ALL or equals z_group. -/
def groupOk (f : Filters) (p : Props) : Bool :=
  decide (f.group = "ALL") || decide (p.z_group = some f.group)

/-- Year predicate: the derived year is absent or falsy, or lies in the
configured inclusive range. -/
def yearOk (f : Filters) (p : Props) : Bool :=
  match featureYear p with
  | none => true
  | some y => !(decide (y ≠ 0) && (decide (y < f.yearMin) || decide (y > f.yearMax)))

/-- Area predicate: the defaulted area lies in the inclusive range. -/
def areaOk (f : Filters) (p : Props) : Bool :=
  decide (f.areaMin ≤ jsOrQ p.area_acres 0) && decide (jsOrQ p.area_acres 0 ≤ f.areaMax)

/-- Search predicate: empty search always passes, otherwise some
searchable field must include the lower-cased term. -/
def searchOk (f : Filters) (p : Props) : Bool :=
  if f.search = "" then true else searchHit (strToLower f.search) p

/-! ## Analytics aggregation (updateAnalyticsFromFeatures lines 1108 to 1143)

JS objects used as dictionaries are modelled as association lists whose
update keeps insertion order, mirroring how the single forEach pass of
the source builds areaByGroup, countsByYear and areaByCode. -/

structure Analytics where
  areaByGroup : List (String × ℚ)
  countsByYear : List (Int × Nat)
  areaByCode : List (String × ℚ)
deriving DecidableEq

/-- Model of the JS dictionary update m[k] = (m[k] OR 0) + v. -/
def bumpQ : List (String × ℚ) → String → ℚ → List (String × ℚ)
  | [], k, v => [(k, v)]
  | (k₀, v₀) :: rest, k, v =>
      if k₀ = k then (k₀, v₀ + v) :: rest else (k₀, v₀) :: bumpQ rest k v

/-- Model of the JS dictionary update m[k] = (m[k] OR 0) + 1. -/
def bumpCount : List (Int × Nat) → Int → List (Int × Nat)
  | [], k => [(k, 1)]
  | (k₀, c₀) :: rest, k =>
      if k₀ = k then (k₀, c₀ + 1) :: rest else (k₀, c₀) :: bumpCount rest k

/-- One iteration of the forEach loop of updateAnalyticsFromFeatures:
adds the defaulted area under z_group (default Other) and under ZONING
(default Unknown), and counts the derived year when it is truthy and
strictly greater than 1900. -/
def analyticsStep (a : Analytics) (feat : Feature) : Analytics :=
  let p := feat.properties
  let a₁ := { a with areaByGroup := bumpQ a.areaByGroup (jsOrStr p.z_group "Other") (jsOrQ p.area_acres 0) }
  let a₂ :=
    match featureYear p with
    | some y =>
        if decide (y ≠ 0) && decide (y > 1900) then
          { a₁ with countsByYear := bumpCount a₁.countsByYear y }
        else a₁
    | none => a₁
  { a₂ with areaByCode := bumpQ a₂.areaByCode (jsOrStr p.ZONING "Unknown") (jsOrQ p.area_acres 0) }

/-- The full aggregation pass of updateAnalyticsFromFeatures over the
input feature list, starting from empty dictionaries. -/
def computeAnalytics (features : List Feature) : Analytics :=
  features.foldl analyticsStep ⟨[], [], []⟩

/-- The guarded analytics update (lines 1108 to 1110): when the panel is
absent or the feature list is empty the function returns at once and the
previously rendered charts stay as they are; otherwise the aggregation
is recomputed and the charts are replaced. -/
def updateAnalyticsFromFeatures (analyticsPanel : Bool) (features : List Feature)
    (charts : Option Analytics) : Option Analytics :=
  if !analyticsPanel || decide (features.length = 0) then charts
  else some (computeAnalytics features)

/-- Sum of the values of a rational-valued dictionary. -/
def sumValsQ (m : List (String × ℚ)) : ℚ :=
  (m.map Prod.snd).sum

/-- Sum of the values of a count dictionary. -/
def sumCounts (m : List (Int × Nat)) : Nat :=
  (m.map Prod.snd).sum

/-- The counting condition of the analytics loop: the derived year is
truthy and strictly greater than 1900, i.e. the feature has a parseable
effective year in the sense of the spec (section 4.1 cutoff). -/
def hasCountableYear (p : Props) : Bool :=
  match featureYear p with
  | none => false
  | some y => decide (y ≠ 0) && decide (y > 1900)

/-- Modelled from the spec: the totalAcres KPI of section 4.4, the sum
of the defaulted areas over the input features; app_maplibre.js does not
compute this scalar itself. -/
def totalAcres (fs : List Feature) : ℚ :=
  (fs.map (fun feat => jsOrQ feat.properties.area_acres 0)).sum

/-! ## CSV export (exportToCSV lines 900 to 917)

The code reads a property value, treats null and undefined as the empty
cell, and otherwise works on String(value); a row is therefore modelled
as a map from field name to the optional string coercion of its value.
The global regex replacement doubles every double-quote character, and
the cell is wrapped in double quotes when the escaped text includes a
comma. -/

/-- Doubling of every double-quote character, the effect of the call
value.replace with the global double-quote pattern. -/
def escapeQuotes : List Char → List Char
  | [] => []
  | c :: cs => if c = '"' then '"' :: '"' :: escapeQuotes cs else c :: escapeQuotes cs

/-- String form of the quote doubling. -/
def csvEscape (s : String) : String :=
  String.mk (escapeQuotes s.toList)

/-- One CSV cell: empty for null or absent values; otherwise the quote
doubled text, wrapped in double quotes when it includes a comma. -/
def csvCell (v : Option String) : String :=
  match v with
  | none => ""
  | some s =>
      let escaped := csvEscape s
      if strIncludes escaped "," then "\"" ++ escaped ++ "\"" else escaped

/-- The CSV serializer: header of the field names joined by commas, one
row per feature in order, rows joined to the header by newlines. -/
def exportToCSV (data : List (String → Option String)) (fields : List String) : String :=
  String.intercalate "\n"
    (String.intercalate "," fields ::
      data.map (fun props => String.intercalate "," (fields.map (fun fld => csvCell (props fld)))))

/-! ## Export flow (exportFilteredData lines 690 to 774, executeExport
lines 860 to 898)

exportFilteredData aborts with a notification when no data is loaded or
when the filtered set is empty, before the field selection modal opens;
executeExport aborts with a notification when no field is selected, and
otherwise recomputes the filtered set and hands it to a serializer that
generates the download. Neither abort path writes any application
state, so the flow is a pure function of the state it reads. -/

inductive Format where
  | csv
  | geojson
  | json
deriving DecidableEq

/-- Outcome of the export flow: an error notification with no file, or
a generated download of the given number of features in a format. -/
inductive ExportOutcome where
  | failure (message : String)
  | download (count : Nat) (format : Format)
deriving DecidableEq

/-- The export flow from the export button press through executeExport,
over one fixed application state. -/
def exportFlow (zoningData : Option (List Feature)) (f : Filters)
    (selectedFields : List String) (format : Format) : ExportOutcome :=
  match zoningData with
  | none => .failure "No data available to export"
  | some _ =>
      if decide ((getCurrentFilteredData zoningData f).length = 0) then
        .failure "No data matches current filters"
      else if decide (selectedFields.length = 0) then
        .failure "Please select at least one field to export"
      else
        .download (getCurrentFilteredData zoningData f).length format

/-- Bool form of the hypothesis of the year pass-through claim: every
present date attribute fails to parse (in particular it holds when no
date attribute is present at all). -/
def dateUnparsed : Option DateVal → Bool
  | none => true
  | some v => v.fullYear == none

/-- All three date attributes are absent or unparseable. -/
def allDatesUnparsed (p : Props) : Bool :=
  dateUnparsed p.BCC_DATE && dateUnparsed p.P_Z_DATE && dateUnparsed p.MAINT_DATE

/-! ## Concrete inputs for counterexamples and witnesses -/

/-- Feature whose only date attribute is truthy and parses to the year
1899 (for example the ISO string 1899-06-15). -/
def pYear1899 : Props :=
  { z_group := none, ZONING := none, PD_NAME := none, ZONINGOLD := none,
    area_acres := none, BCC_DATE := some ⟨true, some 1899⟩,
    P_Z_DATE := none, MAINT_DATE := none }

/-- Filter configuration with the default year range 1980 to 2030 and
everything else permissive. -/
def fYears1980to2030 : Filters :=
  { group := "ALL", yearMin := 1980, yearMax := 2030,
    areaMin := 0, areaMax := 1000, search := "" }

/-- Feature whose only date attribute is truthy but unparseable (for
example the string not-a-date), so its parsed year is NaN. -/
def pUnparsedDate : Props :=
  { z_group := none, ZONING := none, PD_NAME := none, ZONINGOLD := none,
    area_acres := none, BCC_DATE := some ⟨true, none⟩,
    P_Z_DATE := none, MAINT_DATE := none }

/-- Narrow year range used by the pass-through witness. -/
def fYears2000to2001 : Filters :=
  { group := "ALL", yearMin := 2000, yearMax := 2001,
    areaMin := 0, areaMax := 1000, search := "" }

/-- Single-field row whose value holds a double quote and no comma. -/
def rowQuoteNoComma : String → Option String :=
  fun fld => if fld = "F" then some "a\"b" else none

/-- Plain residential feature with no dates. -/
def featPlain : Feature :=
  ⟨{ z_group := some "Residential", ZONING := some "R-1", PD_NAME := none,
     ZONINGOLD := none, area_acres := some 50, BCC_DATE := none,
     P_Z_DATE := none, MAINT_DATE := none }⟩

/-- Fully permissive filter configuration. -/
def fPermissive : Filters :=
  { group := "ALL", yearMin := 1980, yearMax := 2030,
    areaMin := 0, areaMax := 1000, search := "" }

/-- Feature whose area is exactly five acres. -/
def pAreaFive : Props :=
  { z_group := none, ZONING := none, PD_NAME := none, ZONINGOLD := none,
    area_acres := some 5, BCC_DATE := none, P_Z_DATE := none, MAINT_DATE := none }

/-- Filter configuration with the area range 5 to 10 acres. -/
def fArea5to10 : Filters :=
  { group := "ALL", yearMin := 1980, yearMax := 2030,
    areaMin := 5, areaMax := 10, search := "" }

/-- Feature in the Residential category. -/
def pResidential : Props :=
  { z_group := some "Residential", ZONING := none, PD_NAME := none,
    ZONINGOLD := none, area_acres := none, BCC_DATE := none,
    P_Z_DATE := none, MAINT_DATE := none }

/-- Filter configuration searching for the upper-cased string RESI. -/
def fSearchResi : Filters :=
  { group := "ALL", yearMin := 1980, yearMax := 2030,
    areaMin := 0, areaMax := 1000, search := "RESI" }

/-- Previously rendered analytics, used by the frame-effect witness. -/
def chartsPrev : Option Analytics :=
  some ⟨[("Residential", 55)], [(2005, 1)], [("R-1", 55)]⟩

/-- The amended CSV cell rule, stated from the amended claim: a null or
absent value becomes the empty cell; otherwise every internal double
quote is doubled unconditionally, and the cell is wrapped in double
quotes exactly when the quote-doubled text includes a comma. -/
def cellRuleAmended (v : Option String) : String :=
  match v with
  | none => ""
  | some s =>
      if strIncludes (csvEscape s) "," then "\"" ++ csvEscape s ++ "\""
      else csvEscape s

/-! ## Helper lemmas -/

/-- A chain of early returns of false equals the conjunction of the
negated guards. -/
theorem chainFalse (a b c d : Bool) :
    (if a then false
     else if b then false
     else if c then false
     else if d then false
     else true) = (!a && !b && !c && !d) := by
  cases a <;> cases b <;> cases c <;> cases d <;> rfl

/-- The positive category predicate is the negated group exclusion. -/
theorem groupOk_eq_not_excl (f : Filters) (p : Props) :
    groupOk f p = !groupExcl f p := by
  simp [groupOk, groupExcl, decide_not]

/-- The positive year predicate is the negated year exclusion. -/
theorem yearOk_eq_not_excl (f : Filters) (p : Props) :
    yearOk f p = !yearExcl f p := by
  unfold yearOk yearExcl
  cases featureYear p <;> simp

/-- The positive area predicate is the negated area exclusion. -/
theorem areaOk_eq_not_excl (f : Filters) (p : Props) :
    areaOk f p = !areaExcl f p := by
  simp [areaOk, areaExcl, Bool.not_or, ← decide_not, not_lt]

/-- The positive search predicate is the negated search exclusion. -/
theorem searchOk_eq_not_excl (f : Filters) (p : Props) :
    searchOk f p = !searchExcl f p := by
  unfold searchOk searchExcl
  by_cases h : f.search = "" <;> simp [h]

/-- A search hit is a hit on one of the four searchable fields. -/
theorem searchHit_iff (term : String) (p : Props) :
    searchHit term p = true ↔
      (strIncludes (strToLower (jsOrStr p.ZONING "")) term = true ∨
       strIncludes (strToLower (jsOrStr p.z_group "")) term = true ∨
       strIncludes (strToLower (jsOrStr p.PD_NAME "")) term = true ∨
       strIncludes (strToLower (jsOrStr p.ZONINGOLD "")) term = true) := by
  simp only [searchHit, List.map_cons, List.map_nil, List.any_cons,
    List.any_nil, Bool.or_eq_true, Bool.or_false]

/-- A conditional date step yields no year when the attribute is absent
or unparseable and the rest of the chain yields none. -/
theorem condDate_none {d : Option DateVal} {rest : Option Int}
    (hd : dateUnparsed d = true) (hrest : rest = none) :
    condDate d rest = none := by
  cases d with
  | none => simpa [condDate] using hrest
  | some v =>
      simp only [dateUnparsed, beq_iff_eq] at hd
      by_cases ht : v.isTruthy <;> simp [condDate, ht, hd, hrest]

/-- Updating a rational dictionary adds the increment to its value sum. -/
theorem sumValsQ_bumpQ (m : List (String × ℚ)) (k : String) (v : ℚ) :
    sumValsQ (bumpQ m k v) = sumValsQ m + v := by
  induction m with
  | nil => simp [bumpQ, sumValsQ]
  | cons hd tl ih =>
      obtain ⟨k₀, v₀⟩ := hd
      by_cases h : k₀ = k
      · simp [bumpQ, h, sumValsQ]
        ring
      · simp only [bumpQ, h, if_false, sumValsQ, List.map_cons, List.sum_cons] at ih ⊢
        rw [ih]
        ring

/-- Updating a count dictionary adds one to its value sum. -/
theorem sumCounts_bumpCount (m : List (Int × Nat)) (k : Int) :
    sumCounts (bumpCount m k) = sumCounts m + 1 := by
  induction m with
  | nil => simp [bumpCount, sumCounts]
  | cons hd tl ih =>
      obtain ⟨k₀, c₀⟩ := hd
      by_cases h : k₀ = k
      · simp [bumpCount, h, sumCounts]
        omega
      · simp only [bumpCount, h, if_false, sumCounts, List.map_cons, List.sum_cons] at ih ⊢
        omega

/-- One aggregation step adds the defaulted feature area to the value
sum of the area-by-group dictionary. -/
theorem analyticsStep_areaByGroup (a : Analytics) (feat : Feature) :
    sumValsQ (analyticsStep a feat).areaByGroup
      = sumValsQ a.areaByGroup + jsOrQ feat.properties.area_acres 0 := by
  unfold analyticsStep
  cases h : featureYear feat.properties <;> simp [h, sumValsQ_bumpQ]
  split <;> simp [sumValsQ_bumpQ]

/-- One aggregation step adds one to the value sum of the counts-by-year
dictionary exactly when the feature has a countable year. -/
theorem analyticsStep_counts (a : Analytics) (feat : Feature) :
    sumCounts (analyticsStep a feat).countsByYear
      = sumCounts a.countsByYear
          + (if hasCountableYear feat.properties then 1 else 0) := by
  unfold analyticsStep hasCountableYear
  cases h : featureYear feat.properties <;> simp [h]
  split <;> simp [sumCounts_bumpCount]

/-- The aggregation fold accumulates the total defaulted area into the
value sum of the area-by-group dictionary. -/
theorem fold_areaByGroup (fs : List Feature) (a : Analytics) :
    sumValsQ ((fs.foldl analyticsStep a).areaByGroup)
      = sumValsQ a.areaByGroup + totalAcres fs := by
  induction fs generalizing a with
  | nil => simp [totalAcres]
  | cons feat tl ih =>
      simp only [List.foldl_cons, ih, analyticsStep_areaByGroup, totalAcres,
        List.map_cons, List.sum_cons]
      ring

/-- The aggregation fold accumulates the countable-year feature count
into the value sum of the counts-by-year dictionary. -/
theorem fold_counts (fs : List Feature) (a : Analytics) :
    sumCounts ((fs.foldl analyticsStep a).countsByYear)
      = sumCounts a.countsByYear
          + (fs.filter (fun feat => hasCountableYear feat.properties)).length := by
  induction fs generalizing a with
  | nil => simp
  | cons feat tl ih =>
      simp only [List.foldl_cons, ih, analyticsStep_counts, List.filter_cons]
      split <;> (simp; try omega)

/-! ## Claim theorems -/

/-- C1: for every feature and every filter configuration, the filter
callback of applyFilters includes the feature if and only if all four
component predicates hold simultaneously: category, year, area and
search; failing any one of them excludes the feature. -/
theorem filter_is_conjunction_of_predicates (f : Filters) (feat : Feature) :
    applyFiltersPred f feat
      = (groupOk f feat.properties && yearOk f feat.properties
          && areaOk f feat.properties && searchOk f feat.properties) := by
  unfold applyFiltersPred
  rw [chainFalse, groupOk_eq_not_excl, yearOk_eq_not_excl,
    areaOk_eq_not_excl, searchOk_eq_not_excl]

/-- C2 counterexample: a feature whose only date attribute parses to
the year 1899, which is at most 1900, is not treated as having an
absent year by the year filter: with the default range 1980 to 2030 the
year predicate excludes it, contradicting the claimed cutoff. -/
theorem year_cutoff_counterexample :
    featureYear pYear1899 = some 1899 ∧ (1899 : Int) ≤ 1900 ∧
      yearOk fYears1980to2030 pYear1899 = false ∧
      applyFiltersPred fYears1980to2030 ⟨pYear1899⟩ = false := by
  refine ⟨rfl, by decide, rfl, ?_⟩
  rfl

/-- C2 amended: the effective year is derived from the first truthy of
BCC_DATE, P_Z_DATE, MAINT_DATE; the year filter applies its range check
to every truthy parsed year, with no cutoff at 1900; the cutoff of 1900
applies only to the analytics count, which counts a feature exactly
when its derived year is strictly greater than 1900. -/
theorem year_filter_uncut_analytics_cutoff (f : Filters) (p : Props) :
    (yearOk f p = false ↔
        ∃ y : Int, featureYear p = some y ∧ y ≠ 0
          ∧ (y < f.yearMin ∨ y > f.yearMax)) ∧
    (hasCountableYear p = true ↔
        ∃ y : Int, featureYear p = some y ∧ 1900 < y) := by
  constructor
  · unfold yearOk
    cases h : featureYear p <;> simp [h]
    omega
  · unfold hasCountableYear
    cases h : featureYear p <;> simp [h]
    omega

/-- C3: the filter callback used by applyFilters for map re-rendering
and the filter callback used by getCurrentFilteredData for export and
analytics decide inclusion identically, so the exported and aggregated
feature set always equals the set shown on the map. -/
theorem map_filter_eq_export_filter (f : Filters) :
    (∀ feat : Feature,
        applyFiltersPred f feat = getCurrentFilteredDataPred f feat) ∧
    (∀ fs : List Feature,
        applyFiltersFeatures fs f = getCurrentFilteredData (some fs) f) := by
  have hpred : applyFiltersPred f = getCurrentFilteredDataPred f := by
    funext feat
    rfl
  exact ⟨fun feat => congrFun hpred feat, fun fs => by
    unfold applyFiltersFeatures getCurrentFilteredData
    rw [hpred]⟩

/-- C4: a feature all of whose present date attributes fail to parse,
in particular one with no date attribute at all, passes the year
predicate regardless of the configured year range. -/
theorem unparsed_dates_pass_year_filter (f : Filters) (p : Props)
    (h : allDatesUnparsed p = true) : yearOk f p = true := by
  simp only [allDatesUnparsed, Bool.and_eq_true] at h
  have hy : featureYear p = none :=
    condDate_none h.1.1 (condDate_none h.1.2 (condDate_none h.2 rfl))
  unfold yearOk
  rw [hy]

/-- Witness for C4 at a feature whose only date attribute is truthy but
unparseable, against a narrow year range. -/
theorem unparsed_dates_pass_year_filter_witness :
    allDatesUnparsed pUnparsedDate = true ∧
      yearOk fYears2000to2001 pUnparsedDate = true :=
  ⟨by decide,
    unparsed_dates_pass_year_filter fYears2000to2001 pUnparsedDate (by decide)⟩

/-- C5: the aggregation conserves mass: the value sum of the
area-by-group dictionary equals the total defaulted acreage of the
input features, and the value sum of the counts-by-year dictionary
equals the number of input features with a parseable effective year. -/
theorem analytics_conservation (fs : List Feature) :
    sumValsQ (computeAnalytics fs).areaByGroup = totalAcres fs ∧
    totalAcres fs
      = (fs.map (fun feat => jsOrQ feat.properties.area_acres 0)).sum ∧
    sumCounts (computeAnalytics fs).countsByYear
      = (fs.filter (fun feat => hasCountableYear feat.properties)).length := by
  refine ⟨?_, rfl, ?_⟩
  · simpa [computeAnalytics, sumValsQ] using fold_areaByGroup fs ⟨[], [], []⟩
  · simpa [computeAnalytics, sumCounts] using fold_counts fs ⟨[], [], []⟩

/-- C6 counterexample: on a value holding a double quote and no comma
the serializer doubles the quote even though the cell is not wrapped,
so the produced CSV differs from the output the claim predicts, in
which quote doubling happens only together with the comma wrapping. -/
theorem csv_quote_doubling_counterexample :
    exportToCSV [rowQuoteNoComma] ["F"] = "F\na\"\"b" ∧
      exportToCSV [rowQuoteNoComma] ["F"] ≠ "F\na\"b" := by
  constructor
  · rfl
  · decide

/-- C6 amended: the CSV output is the header of field names joined by
commas followed by one row per feature in order; a null or absent value
becomes the empty cell; otherwise internal double quotes are always
doubled and the cell is wrapped in double quotes exactly when the
quote-doubled text contains a comma. -/
theorem csv_export_shape (data : List (String → Option String)) (fields : List String) :
    exportToCSV data fields
      = String.intercalate "\n"
          (String.intercalate "," fields ::
            data.map (fun props =>
              String.intercalate ","
                (fields.map (fun fld => cellRuleAmended (props fld))))) := by
  have hcell : csvCell = cellRuleAmended := by
    funext v
    cases v <;> rfl
  unfold exportToCSV
  rw [hcell]

/-- C7: the export flow fails with a notification, producing no file,
whenever the selected field list is empty or the filtered feature set
is empty; both abort paths are pure reads of the application state. -/
theorem export_aborts_on_empty (zoningData : Option (List Feature)) (f : Filters)
    (selectedFields : List String) (format : Format)
    (h : selectedFields = [] ∨ getCurrentFilteredData zoningData f = []) :
    ∃ msg, exportFlow zoningData f selectedFields format
      = ExportOutcome.failure msg := by
  cases zoningData with
  | none => exact ⟨"No data available to export", rfl⟩
  | some fs =>
      unfold exportFlow
      rcases h with h | h
      · by_cases hf : (getCurrentFilteredData (some fs) f).length = 0
        · exact ⟨"No data matches current filters", by simp [hf]⟩
        · exact ⟨"Please select at least one field to export", by simp [hf, h]⟩
      · exact ⟨"No data matches current filters", by simp [h]⟩

/-- Witness for C7 at a loaded single-feature dataset, a permissive
filter and an empty selected field list. -/
theorem export_aborts_on_empty_witness :
    ∃ msg, exportFlow (some [featPlain]) fPermissive [] Format.csv
      = ExportOutcome.failure msg :=
  export_aborts_on_empty (some [featPlain]) fPermissive [] Format.csv (Or.inl rfl)

/-- C8: the area predicate uses inclusive bounds over the area defaulted
to zero: a feature is kept by the area test exactly when areaMin is at
most the defaulted area and the defaulted area is at most areaMax; in
particular an area exactly equal to either bound is kept, and an absent
area is treated as zero. -/
theorem area_bounds_inclusive_default_zero (f : Filters) (p : Props) :
    (areaExcl f p = false ↔
        f.areaMin ≤ jsOrQ p.area_acres 0 ∧ jsOrQ p.area_acres 0 ≤ f.areaMax) ∧
    (f.areaMin ≤ f.areaMax →
      (jsOrQ p.area_acres 0 = f.areaMin ∨ jsOrQ p.area_acres 0 = f.areaMax) →
        areaExcl f p = false) ∧
    (p.area_acres = none → jsOrQ p.area_acres 0 = 0) := by
  have hiff : areaExcl f p = false ↔
      f.areaMin ≤ jsOrQ p.area_acres 0 ∧ jsOrQ p.area_acres 0 ≤ f.areaMax := by
    unfold areaExcl
    simp [not_lt]
  refine ⟨hiff, ?_, ?_⟩
  · intro hle hcase
    rcases hcase with h | h
    · exact hiff.mpr ⟨le_of_eq h.symm, h ▸ hle⟩
    · exact hiff.mpr ⟨h ▸ hle, le_of_eq h⟩
  · intro h
    simp [jsOrQ, h]

/-- Witness for C8 at a feature whose area equals the lower bound of
the configured range 5 to 10. -/
theorem area_bounds_inclusive_witness :
    areaExcl fArea5to10 pAreaFive = false :=
  (area_bounds_inclusive_default_zero fArea5to10 pAreaFive).2.1
    (by decide) (Or.inl (by decide))

/-- C9: with a nonempty search string the search test keeps a feature
exactly when one of the four fields ZONING, z_group, PD_NAME and
ZONINGOLD, defaulted to the empty string and lower-cased, includes the
lower-cased search string as a substring; with an empty search string
the test always keeps the feature. -/
theorem search_predicate_characterization (f : Filters) (p : Props) :
    (f.search = "" → searchExcl f p = false) ∧
    (f.search ≠ "" →
      (searchExcl f p = false ↔
        (strIncludes (strToLower (jsOrStr p.ZONING "")) (strToLower f.search) = true ∨
         strIncludes (strToLower (jsOrStr p.z_group "")) (strToLower f.search) = true ∨
         strIncludes (strToLower (jsOrStr p.PD_NAME "")) (strToLower f.search) = true ∨
         strIncludes (strToLower (jsOrStr p.ZONINGOLD "")) (strToLower f.search) = true))) := by
  constructor
  · intro h
    simp [searchExcl, h]
  · intro h
    have hd : decide (f.search ≠ "") = true := by simp [h]
    simp only [searchExcl, hd, Bool.true_and, Bool.not_eq_false']
    exact searchHit_iff (strToLower f.search) p

/-- Witness for C9: searching for RESI keeps a feature in the category
Residential, case-insensitively and by substring. -/
theorem search_predicate_witness :
    searchExcl fSearchResi pResidential = false :=
  ((search_predicate_characterization fSearchResi pResidential).2
      (by decide)).mpr
    (Or.inr (Or.inl (by decide)))

/-- C10: invoked with an empty feature list or before the analytics
panel exists, the analytics update returns at once and the previously
rendered aggregations are left entirely unchanged. -/
theorem empty_features_leave_analytics_unchanged (analyticsPanel : Bool)
    (features : List Feature) (charts : Option Analytics)
    (h : features = [] ∨ analyticsPanel = false) :
    updateAnalyticsFromFeatures analyticsPanel features charts = charts := by
  unfold updateAnalyticsFromFeatures
  rcases h with h | h <;> simp [h]

/-- Witness for C10 at an open panel, the empty feature list and a
nonempty previously rendered aggregation. -/
theorem empty_features_leave_analytics_unchanged_witness :
    updateAnalyticsFromFeatures true [] chartsPrev = chartsPrev :=
  empty_features_leave_analytics_unchanged true [] chartsPrev (Or.inl rfl)

end OCZoning
